import Mathlib

/-!
Verification of the Food-Wastage-Reduction-Platform ("Food Bridge") against
its specification.  The repository ships a single React client,
`frontend/src/App.js`; the HTTP requests it builds, its role dispatch, its
authentication state handling and its form constraints are embedded below
directly from that file.  The server-side components described by the spec
(token service, listing repository, request/matching engine, stats
aggregator) are not present in the repository, so they are modelled from
the spec's own words; each such definition is marked `Modelled from the
spec:` in its doc comment.
-/

/-! ## JSON values and client requests (from frontend/src/App.js) -/

/-- A JSON value as serialized by `JSON.stringify` in the client: the bodies
built in App.js contain only strings, integers and null. -/
inductive JsonValue where
  | str (s : String)
  | num (n : Int)
  | null
deriving DecidableEq, Repr

/-- An HTTP request as assembled by a `fetch` call in App.js: method, path
relative to `API_BASE_URL`, optional `Authorization` header value, optional
`Content-Type` header value, and the JSON body as an ordered field list
(empty when no body is sent). -/
structure ClientRequest where
  method : String
  path : String
  authorization : Option String
  contentType : Option String
  body : List (String × JsonValue)
deriving DecidableEq, Repr

/-- The JSON field names of a request body, in order. -/
def ClientRequest.bodyFields (r : ClientRequest) : List String :=
  r.body.map Prod.fst

/-- The registration form data submitted by `renderRegisterForm`
(App.js lines 172-184). -/
structure RegisterForm where
  name : String
  email : String
  password : String
  role : String
  phone : String
  address : String
  organization : String
deriving DecidableEq, Repr

/-- `handleLogin` (App.js lines 43-67): POST to `/api/auth/login` with a
JSON body of email and password and no Authorization header. -/
def handleLoginRequest (email password : String) : ClientRequest :=
  { method := "POST"
  , path := "/api/auth/login"
  , authorization := none
  , contentType := some ("application/json")
  , body := [("email", JsonValue.str email), ("password", JsonValue.str password)] }

/-- `handleRegister` (App.js lines 69-93) with the payload built by the
register form (lines 175-183): POST to `/api/auth/register`, no
Authorization header, body fields name, email, password, role, phone,
address, organization in that order. -/
def handleRegisterRequest (f : RegisterForm) : ClientRequest :=
  { method := "POST"
  , path := "/api/auth/register"
  , authorization := none
  , contentType := some ("application/json")
  , body := [ ("name", JsonValue.str f.name)
            , ("email", JsonValue.str f.email)
            , ("password", JsonValue.str f.password)
            , ("role", JsonValue.str f.role)
            , ("phone", JsonValue.str f.phone)
            , ("address", JsonValue.str f.address)
            , ("organization", JsonValue.str f.organization) ] }

/-- `fetchCurrentUser` (App.js lines 21-41): GET `/api/auth/me` with the
bearer token and no body. -/
def fetchCurrentUserRequest (token : String) : ClientRequest :=
  { method := "GET"
  , path := "/api/auth/me"
  , authorization := some ("Bearer " ++ token)
  , contentType := none
  , body := [] }

/-- `fetchListings` (App.js lines 336-348 and, identically, 645-657):
GET `/api/listings` with the bearer token. -/
def fetchListingsRequest (token : String) : ClientRequest :=
  { method := "GET"
  , path := "/api/listings"
  , authorization := some ("Bearer " ++ token)
  , contentType := none
  , body := [] }

/-- `fetchStats` (App.js lines 350-362 and, identically, 659-671):
GET `/api/dashboard/stats` with the bearer token. -/
def fetchStatsRequest (token : String) : ClientRequest :=
  { method := "GET"
  , path := "/api/dashboard/stats"
  , authorization := some ("Bearer " ++ token)
  , contentType := none
  , body := [] }

/-- The listing-creation form data submitted by the donor dashboard's
create view (App.js lines 422-434); every value is the raw string read
from the form. -/
structure ListingForm where
  title : String
  description : String
  quantity : String
  food_type : String
  pickup_address : String
  expiry_hours : String
  image_url : String
deriving DecidableEq, Repr

/-- Whether a character is a decimal digit (code points 48-57). -/
def isDigitChar (c : Char) : Bool :=
  48 ≤ c.toNat && c.toNat ≤ 57

/-- JavaScript `parseInt` restricted to the strings this client feeds it:
the expiry select only ever submits a non-empty decimal numeral, on which
`parseInt` agrees with exact decimal parsing; any other string models as
`none` (parseInt's NaN). -/
def jsParseInt (s : String) : Option Int :=
  if s.data.length ≠ 0 && s.data.all isDigitChar then
    some (s.data.foldl (fun acc c => acc * 10 + ((c.toNat : Int) - 48)) 0)
  else none

/-- The JSON value `JSON.stringify` produces for `parseInt`'s result:
a number, or null when `parseInt` returned NaN. -/
def jsonOfParseInt (s : String) : JsonValue :=
  match jsParseInt s with
  | some n => JsonValue.num n
  | none => JsonValue.null

/-- `createListing` (App.js lines 364-389) with the payload built at
lines 425-433: POST `/api/listings`, bearer token, body fields title,
description, quantity, food_type, pickup_address, expiry_hours (parsed
with `parseInt`), image_url (null when the form field is empty). -/
def createListingRequest (token : String) (f : ListingForm) : ClientRequest :=
  { method := "POST"
  , path := "/api/listings"
  , authorization := some ("Bearer " ++ token)
  , contentType := some ("application/json")
  , body := [ ("title", JsonValue.str f.title)
            , ("description", JsonValue.str f.description)
            , ("quantity", JsonValue.str f.quantity)
            , ("food_type", JsonValue.str f.food_type)
            , ("pickup_address", JsonValue.str f.pickup_address)
            , ("expiry_hours", jsonOfParseInt f.expiry_hours)
            , ("image_url", if f.image_url = "" then JsonValue.null
                            else JsonValue.str f.image_url) ] }

/-- `markComplete` (App.js lines 391-406): POST
`/api/listings/{id}/complete` with the bearer token and no body. -/
def markCompleteRequest (token listingId : String) : ClientRequest :=
  { method := "POST"
  , path := "/api/listings/" ++ listingId ++ "/complete"
  , authorization := some ("Bearer " ++ token)
  , contentType := none
  , body := [] }

/-- The default for `requestPickup`'s `message` parameter
(App.js line 673: `message = ''`). -/
def requestPickupDefaultMessage : String := ""

/-- `requestPickup` (App.js lines 673-697): POST
`/api/listings/{id}/request` with the bearer token and a JSON body holding
both `listing_id` and `message`. -/
def requestPickupRequest (token listingId message : String) : ClientRequest :=
  { method := "POST"
  , path := "/api/listings/" ++ listingId ++ "/request"
  , authorization := some ("Bearer " ++ token)
  , contentType := some ("application/json")
  , body := [("listing_id", JsonValue.str listingId), ("message", JsonValue.str message)] }

/-- The Request Pickup button handler (App.js lines 790-796): it prompts
for a message; when `prompt` returns null (the user cancelled) no request
is issued, otherwise `requestPickup` is called with the prompt result. -/
def requestPickupAction (token listingId : String) (promptResult : Option String) :
    Option ClientRequest :=
  match promptResult with
  | none => none
  | some m => some (requestPickupRequest token listingId m)

/-! ## Role dispatch and dashboard rendering (App.js lines 293-316) -/

/-- Which dashboard component the client renders. -/
inductive Dashboard where
  | donor
  | ngo
deriving DecidableEq, Repr

/-- App.js lines 312-316: `user.role === 'donor' ? <DonorDashboard/> :
<NGODashboard/>`. -/
def dispatchDashboard (role : String) : Dashboard :=
  if role = "donor" then Dashboard.donor else Dashboard.ngo

/-- App.js lines 293-295: the navigation badge,
`user.role === 'donor' ? 'Donor' : 'NGO'`. -/
def roleBadge (role : String) : String :=
  if role = "donor" then "Donor" else "NGO"

/-- App.js line 612: the Mark Complete button is rendered exactly when
`listing.status === 'requested'`. -/
def showMarkComplete (status : String) : Bool :=
  status == "requested"

/-! ## Client authentication state (App.js `App` component) -/

/-- The user record the client keeps in its `user` state. -/
structure UserData where
  name : String
  role : String
deriving DecidableEq, Repr

/-- The client-side authentication state: the token persisted in
localStorage, and the `token`, `user` and `currentView` React state of the
`App` component (App.js lines 7-11). -/
structure ClientState where
  localStorageToken : Option String
  token : Option String
  user : Option UserData
  currentView : String
deriving DecidableEq, Repr

/-- App start (App.js lines 8-11): `user` is null, the view is `login`,
and `token` is initialised from `localStorage.getItem('token')`. -/
def appStart (stored : Option String) : ClientState :=
  { localStorageToken := stored
  , token := stored
  , user := none
  , currentView := "login" }

/-- The authentication-relevant outcomes the `App` component reacts to:
the result of `fetchCurrentUser`'s GET /auth/me (ok with a user record,
non-ok, or a thrown error), the results of `handleLogin` and
`handleRegister`, and `handleLogout`. -/
inductive AuthEvent where
  | fetchMeOk (u : UserData)
  | fetchMeNotOk
  | fetchMeThrew
  | loginOk (u : UserData) (t : String)
  | loginFail
  | registerOk (u : UserData) (t : String)
  | registerFail
  | logout
deriving DecidableEq, Repr

/-- The state updates each handler performs (App.js lines 21-100):
`fetchCurrentUser` sets the user and shows the dashboard on ok, and on a
non-ok response or a thrown error removes the stored token and nulls the
token state; `handleLogin`/`handleRegister` store the token and set user
and view on ok and change nothing on failure; `handleLogout` clears
everything. -/
def authStep (s : ClientState) : AuthEvent → ClientState
  | AuthEvent.fetchMeOk u =>
      { s with user := some u, currentView := "dashboard" }
  | AuthEvent.fetchMeNotOk =>
      { s with localStorageToken := none, token := none }
  | AuthEvent.fetchMeThrew =>
      { s with localStorageToken := none, token := none }
  | AuthEvent.loginOk u t =>
      { s with localStorageToken := some t, token := some t
             , user := some u, currentView := "dashboard" }
  | AuthEvent.loginFail => s
  | AuthEvent.registerOk u t =>
      { s with localStorageToken := some t, token := some t
             , user := some u, currentView := "dashboard" }
  | AuthEvent.registerFail => s
  | AuthEvent.logout =>
      { s with localStorageToken := none, token := none
             , user := none, currentView := "login" }

/-- App.js lines 280-282: the login/register forms are rendered when
`user` is null; the dashboard shell is rendered exactly when `user` is
non-null. -/
def rendersDashboard (s : ClientState) : Bool :=
  s.user.isSome

/-- The user record an event delivers through a successful login,
registration or token-verification response, if any. -/
def eventVerifiedUser : AuthEvent → Option UserData
  | AuthEvent.fetchMeOk u => some u
  | AuthEvent.loginOk u _ => some u
  | AuthEvent.registerOk u _ => some u
  | _ => none

/-! ## The spec's §6 interface table (from the spec's words, for
comparison with the requests the client builds) -/

/-- From the spec, §6: registration is `POST /auth/register` with body
fields name, email, password, role and optional phone, address,
organization. -/
def specRegisterPath : String := "/auth/register"

/-- From the spec, §6: the body fields of the registration call. -/
def specRegisterBodyFields : List String :=
  ["name", "email", "password", "role", "phone", "address", "organization"]

/-- From the spec, §6: a pickup request is `POST /listings/{id}/request`. -/
def specPickupPath (listingId : String) : String :=
  "/listings/" ++ listingId ++ "/request"

/-- From the spec, §6: the pickup-request body carries only an optional
message. -/
def specPickupBodyFields : List String := ["message"]

/-! ## Server-side model.  The repository contains no backend source; the
definitions below are modelled from the spec (§3, §4.3, §4.4, §4.5),
as marked on each. -/

/-- Modelled from the spec: the persisted status of a Listing (§3). -/
inductive ListingStatus where
  | available
  | requested
  | completed
  | expired
deriving DecidableEq, Repr

/-- Modelled from the spec: a Listing's fields relevant to the lifecycle
(§3); descriptive fields (title, description, quantity, food_type,
pickup_address, image) carry no logic and are omitted.  `createdAt` is a
wall-clock instant measured in hours. -/
structure Listing where
  id : String
  ownerId : String
  createdAt : ℚ
  expiryHours : ℕ
  status : ListingStatus
deriving DecidableEq, Repr

/-- Modelled from the spec: the status of a Request (§3). -/
inductive RequestStatus where
  | pending
  | accepted
  | rejected
deriving DecidableEq, Repr

/-- Modelled from the spec: a Request record (§3). -/
structure Request where
  listingId : String
  requesterId : String
  message : String
  status : RequestStatus
deriving DecidableEq, Repr

/-- Modelled from the spec: the shared Listing/Request store the engine
and the stats aggregator act on (§2, §5). -/
structure StoreState where
  listings : List Listing
  requests : List Request
deriving DecidableEq, Repr

/-- Modelled from the spec: `elapsed_hours(created_at, now)` (§3). -/
def elapsedHours (createdAt now : ℚ) : ℚ :=
  now - createdAt

/-- Modelled from the spec: the derived field
`hours_remaining = max(0, expiry_hours − elapsed_hours(created_at, now))`,
recomputed on every read, never stored (§3). -/
def hoursRemaining (l : Listing) (now : ℚ) : ℚ :=
  max 0 ((l.expiryHours : ℚ) - elapsedHours l.createdAt now)

/-- Modelled from the spec: the effective status of a listing after the
expiry rule (§3, §4.4): a listing with `hours_remaining == 0` is
observably `expired` regardless of stored status, except a listing
already `completed` stays `completed`. -/
def effectiveStatus (l : Listing) (now : ℚ) : ListingStatus :=
  if l.status = ListingStatus.completed then ListingStatus.completed
  else if hoursRemaining l now = 0 then ListingStatus.expired
  else l.status

/-- Modelled from the spec: a listing read (§4.4): every read recomputes
`hours_remaining` and presents the derived effective status, not the
stored one. -/
def listingRead (l : Listing) (now : ℚ) : ℚ × ListingStatus :=
  (hoursRemaining l now, effectiveStatus l now)

/-- Look a listing up by id in the store. -/
def findListing (st : StoreState) (listingId : String) : Option Listing :=
  st.listings.find? (fun l => l.id == listingId)

/-- Modelled from the spec: the failures of `submitRequest` (§4.3, §6). -/
inductive SubmitError where
  | NotFound
  | ListingUnavailable
deriving DecidableEq, Repr

/-- Modelled from the spec: the claim algorithm
`submitRequest(listing_id, requester, message)` (§4.3): re-derive the
effective status; if it is not `available`, fail with
`ListingUnavailable` and create no Request; otherwise atomically create
an `accepted` Request and transition the listing `available → requested`.
Per §5 the conditional write is a single atomic compare-and-swap, so the
whole function is one indivisible step. -/
def submitRequest (st : StoreState) (now : ℚ) (listingId requester message : String) :
    Except SubmitError StoreState :=
  match findListing st listingId with
  | none => Except.error SubmitError.NotFound
  | some l =>
    if effectiveStatus l now = ListingStatus.available then
      Except.ok
        { listings := st.listings.map (fun x =>
            if x.id == listingId then { x with status := ListingStatus.requested } else x)
        , requests := st.requests ++
            [{ listingId := listingId, requesterId := requester
             , message := message, status := RequestStatus.accepted }] }
    else Except.error SubmitError.ListingUnavailable

/-- The requesters of the accepted Requests recorded for a listing, in
creation order. -/
def acceptedRequestersFor (st : StoreState) (listingId : String) : List String :=
  (st.requests.filter (fun q =>
    q.listingId == listingId && q.status == RequestStatus.accepted)).map
      (fun q => q.requesterId)

/-- Modelled from the spec: N claim attempts on the same listing at the
same instant (§5, §8).  Each `submitRequest` call is atomic, so a
concurrent execution is some sequential order of the calls; this runs
them in the given order and records each call's outcome. -/
def runClaims (st : StoreState) (now : ℚ) (listingId : String) :
    List (String × String) → StoreState × List (Except SubmitError Unit)
  | [] => (st, [])
  | (requester, msg) :: rest =>
    match submitRequest st now listingId requester msg with
    | Except.ok st1 =>
        let res := runClaims st1 now listingId rest
        (res.1, Except.ok () :: res.2)
    | Except.error e =>
        let res := runClaims st now listingId rest
        (res.1, Except.error e :: res.2)

/-- Modelled from the spec: the failures of `completeListing` (§4.3, §6). -/
inductive CompleteError where
  | NotFound
  | InvalidState
  | Forbidden
deriving DecidableEq, Repr

/-- Modelled from the spec: `completeListing(listing_id, donor)` (§4.3):
requires effective status `requested` and caller = owner; fails with
`InvalidState` if the listing is not in `requested`, `Forbidden` if the
caller is not the owner; on success transitions `requested → completed`. -/
def completeListing (st : StoreState) (now : ℚ) (listingId caller : String) :
    Except CompleteError StoreState :=
  match findListing st listingId with
  | none => Except.error CompleteError.NotFound
  | some l =>
    if effectiveStatus l now = ListingStatus.requested then
      if caller = l.ownerId then
        Except.ok
          { st with listings := st.listings.map (fun x =>
              if x.id == listingId then { x with status := ListingStatus.completed } else x) }
      else Except.error CompleteError.Forbidden
    else Except.error CompleteError.InvalidState

/-! ## Listing-creation validation -/

/-- The values offered by the client's expiry select
(App.js lines 471-482). -/
def expiryHoursOptions : List String := ["2", "4", "6", "12", "24"]

/-- The values offered by the client's food-type select
(App.js lines 458-467). -/
def foodTypeOptions : List String := ["veg", "non-veg", "both"]

/-- Modelled from the spec: the enumerated set of valid `expiry_hours`
values {2,4,6,12,24} (§3). -/
def validExpiryHours : List Int := [2, 4, 6, 12, 24]

/-- Modelled from the spec: the enumerated set of valid `food_type`
values (§3). -/
def validFoodTypes : List String := ["veg", "non-veg", "both"]

/-- The listing-creation input as received by the server: the string
fields, and `expiry_hours` as an integer or null. -/
structure ListingInput where
  title : String
  description : String
  quantity : String
  food_type : String
  pickup_address : String
  expiry_hours : Option Int
deriving DecidableEq, Repr

/-- The listing-creation payload the client form submits
(App.js lines 425-433), seen as the server-side input record. -/
def clientListingPayload (f : ListingForm) : ListingInput :=
  { title := f.title
  , description := f.description
  , quantity := f.quantity
  , food_type := f.food_type
  , pickup_address := f.pickup_address
  , expiry_hours := jsParseInt f.expiry_hours }

/-- Modelled from the spec: creation validates `expiry_hours` ∈ the
enumerated set, `food_type` ∈ its enumerated set, required fields
non-empty (§4.4). -/
def validateListingInput (inp : ListingInput) : Bool :=
  decide (inp.title ≠ "") && decide (inp.description ≠ "") &&
  decide (inp.quantity ≠ "") && decide (inp.pickup_address ≠ "") &&
  validFoodTypes.contains inp.food_type &&
  (match inp.expiry_hours with
   | some n => validExpiryHours.contains n
   | none => false)

/-! ## Stats aggregator -/

/-- Modelled from the spec: the donor view of GET /dashboard/stats
(§4.5). -/
structure DonorStats where
  total_listings : ℕ
  active_listings : ℕ
  completed_pickups : ℕ
deriving DecidableEq, Repr

/-- Modelled from the spec: the organization view of GET /dashboard/stats
(§4.5). -/
structure NgoStats where
  total_requests : ℕ
  accepted_requests : ℕ
  completed_pickups : ℕ
deriving DecidableEq, Repr

/-- Whether the listing a request points at has reached `completed`. -/
def requestListingCompleted (st : StoreState) (q : Request) : Bool :=
  match findListing st q.listingId with
  | some l => l.status == ListingStatus.completed
  | none => false

/-- Modelled from the spec: the donor stats (§4.5): `total_listings` =
listings owned by the caller; `active_listings` = those with effective
status `available` or `requested`; `completed_pickups` = those with
status `completed`. -/
def donorStats (st : StoreState) (now : ℚ) (caller : String) : DonorStats :=
  { total_listings :=
      (st.listings.filter (fun l => l.ownerId == caller)).length
  , active_listings :=
      (st.listings.filter (fun l => l.ownerId == caller &&
        (effectiveStatus l now == ListingStatus.available ||
         effectiveStatus l now == ListingStatus.requested))).length
  , completed_pickups :=
      (st.listings.filter (fun l => l.ownerId == caller &&
        l.status == ListingStatus.completed)).length }

/-- Modelled from the spec: the organization stats (§4.5):
`total_requests` = Requests made by the caller; `accepted_requests` =
those `accepted` whose listing is not yet `completed`;
`completed_pickups` = the caller's Requests whose listing reached
`completed`. -/
def ngoStats (st : StoreState) (caller : String) : NgoStats :=
  { total_requests :=
      (st.requests.filter (fun q => q.requesterId == caller)).length
  , accepted_requests :=
      (st.requests.filter (fun q => q.requesterId == caller &&
        q.status == RequestStatus.accepted &&
        !(requestListingCompleted st q))).length
  , completed_pickups :=
      (st.requests.filter (fun q => q.requesterId == caller &&
        requestListingCompleted st q)).length }

/-- The stats field names the server's donor view returns (§4.5). -/
def donorStatsResponseFields : List String :=
  ["total_listings", "active_listings", "completed_pickups"]

/-- The stats field names the server's organization view returns (§4.5). -/
def ngoStatsResponseFields : List String :=
  ["total_requests", "accepted_requests", "completed_pickups"]

/-- The stats field names the donor dashboard reads
(App.js lines 548, 557, 566). -/
def donorDashboardStatReads : List String :=
  ["total_listings", "active_listings", "completed_pickups"]

/-- The stats field names the NGO dashboard reads
(App.js lines 713, 722, 731). -/
def ngoDashboardStatReads : List String :=
  ["total_requests", "accepted_requests", "completed_pickups"]

/-! # Claim theorems -/

/-- C6: every API call the client makes except registration and login
carries the stored token as an `Authorization` header of the exact form
`Bearer <token>`; the registration and login calls carry no Authorization
header. -/
theorem bearer_auth_on_all_calls_except_register_login
    (token listingId message email password : String)
    (f : RegisterForm) (g : ListingForm) :
    (fetchCurrentUserRequest token).authorization = some ("Bearer " ++ token)
    ∧ (fetchListingsRequest token).authorization = some ("Bearer " ++ token)
    ∧ (fetchStatsRequest token).authorization = some ("Bearer " ++ token)
    ∧ (createListingRequest token g).authorization = some ("Bearer " ++ token)
    ∧ (markCompleteRequest token listingId).authorization = some ("Bearer " ++ token)
    ∧ (requestPickupRequest token listingId message).authorization =
        some ("Bearer " ++ token)
    ∧ (handleLoginRequest email password).authorization = none
    ∧ (handleRegisterRequest f).authorization = none :=
  ⟨rfl, rfl, rfl, rfl, rfl, rfl, rfl, rfl⟩

/-- C4 counterexample: the client does not address the operations at
exactly the §6 Method/Path — every path carries an additional `/api`
prefix — and the pickup-request body does not carry only an optional
message: it also carries `listing_id`. -/
theorem interface_paths_and_bodies_counterexample :
    (handleRegisterRequest
      { name := "a", email := "e", password := "p", role := "donor"
      , phone := "", address := "", organization := "" }).path ≠ specRegisterPath
    ∧ (requestPickupRequest ("tok") ("L1") ("hi")).path ≠ specPickupPath ("L1")
    ∧ (requestPickupRequest ("tok") ("L1") ("hi")).bodyFields ≠ specPickupBodyFields := by
  refine ⟨?_, ?_, ?_⟩ <;> decide

/-- C4 amended: every client operation is addressed at the §6 Method/Path
with an `/api` prefix on the path; registration is POST /api/auth/register
carrying name, email, password, role, phone, address and organization, and
a pickup request is POST /api/listings/{id}/request carrying listing_id
and message. -/
theorem interface_paths_api_prefixed
    (token listingId message email password : String)
    (f : RegisterForm) (g : ListingForm) :
    (handleRegisterRequest f).method = "POST"
    ∧ (handleRegisterRequest f).path = "/api" ++ specRegisterPath
    ∧ (handleRegisterRequest f).bodyFields = specRegisterBodyFields
    ∧ (handleLoginRequest email password).method = "POST"
    ∧ (handleLoginRequest email password).path = "/api/auth/login"
    ∧ (handleLoginRequest email password).bodyFields = ["email", "password"]
    ∧ (fetchCurrentUserRequest token).method = "GET"
    ∧ (fetchCurrentUserRequest token).path = "/api/auth/me"
    ∧ (fetchListingsRequest token).method = "GET"
    ∧ (fetchListingsRequest token).path = "/api/listings"
    ∧ (createListingRequest token g).method = "POST"
    ∧ (createListingRequest token g).path = "/api/listings"
    ∧ (createListingRequest token g).bodyFields =
        ["title", "description", "quantity", "food_type", "pickup_address",
         "expiry_hours", "image_url"]
    ∧ (requestPickupRequest token listingId message).method = "POST"
    ∧ (requestPickupRequest token listingId message).path =
        "/api" ++ specPickupPath listingId
    ∧ (requestPickupRequest token listingId message).bodyFields =
        ["listing_id", "message"]
    ∧ (markCompleteRequest token listingId).method = "POST"
    ∧ (markCompleteRequest token listingId).path =
        "/api/listings/" ++ listingId ++ "/complete"
    ∧ (fetchStatsRequest token).method = "GET"
    ∧ (fetchStatsRequest token).path = "/api/dashboard/stats" :=
  ⟨rfl, rfl, rfl, rfl, rfl, rfl, rfl, rfl, rfl, rfl,
   rfl, rfl, rfl, rfl, rfl, rfl, rfl, rfl, rfl, rfl⟩

/-- C9: the pickup-request body always carries both the listing_id
(duplicating the id already in the URL path) and a message field, the
message defaulting to the empty string; and a cancelled prompt issues no
request at all. -/
theorem requestPickup_body_and_prompt_cancel (token listingId message : String) :
    requestPickupAction token listingId none = none
    ∧ requestPickupAction token listingId (some message) =
        some (requestPickupRequest token listingId message)
    ∧ (requestPickupRequest token listingId message).body =
        [("listing_id", JsonValue.str listingId), ("message", JsonValue.str message)]
    ∧ (requestPickupRequest token listingId message).path =
        "/api/listings/" ++ listingId ++ "/request"
    ∧ requestPickupDefaultMessage = ""
    ∧ (requestPickupRequest token listingId requestPickupDefaultMessage).body =
        [("listing_id", JsonValue.str listingId), ("message", JsonValue.str (""))] :=
  ⟨rfl, rfl, rfl, rfl, rfl, rfl⟩

/-- C10: role dispatch is a duck-typed comparison with the string donor:
any authenticated user whose role is not exactly that string — including
any unknown role value — is shown the NGO dashboard and the NGO badge,
with no rejection branch for roles outside donor and ngo. -/
theorem role_dispatch_duck_typed (role : String) :
    (role ≠ "donor" → dispatchDashboard role = Dashboard.ngo ∧ roleBadge role = "NGO")
    ∧ dispatchDashboard ("donor") = Dashboard.donor
    ∧ roleBadge ("donor") = "Donor" := by
  refine ⟨fun h => ⟨?_, ?_⟩, rfl, rfl⟩
  · simp [dispatchDashboard, h]
  · simp [roleBadge, h]

/-- C10 witness: a user with the unknown role string admin is dispatched
to the NGO dashboard with the NGO badge. -/
theorem role_dispatch_duck_typed_witness :
    dispatchDashboard ("admin") = Dashboard.ngo ∧ roleBadge ("admin") = "NGO" :=
  (role_dispatch_duck_typed ("admin")).1 (by decide)

/-- C2: hours_remaining is computed at every read as
max(0, expiry_hours − elapsed_hours(created_at, now)), is monotonically
non-increasing as wall-clock time advances, is strictly positive before
created_at + expiry_hours, and is exactly 0 at that instant. -/
theorem hours_remaining_monotone_and_zero_at_expiry
    (l : Listing) (now now2 : ℚ) :
    (listingRead l now).1 = max 0 ((l.expiryHours : ℚ) - (now - l.createdAt))
    ∧ (now ≤ now2 → hoursRemaining l now2 ≤ hoursRemaining l now)
    ∧ hoursRemaining l (l.createdAt + (l.expiryHours : ℚ)) = 0
    ∧ (now < l.createdAt + (l.expiryHours : ℚ) → 0 < hoursRemaining l now) := by
  refine ⟨rfl, fun h => ?_, ?_, fun h => ?_⟩
  · unfold hoursRemaining
    apply max_le_max le_rfl
    unfold elapsedHours
    linarith
  · simp [hoursRemaining, elapsedHours]
  · have h2 : 0 < (l.expiryHours : ℚ) - elapsedHours l.createdAt now := by
      unfold elapsedHours
      linarith
    exact lt_max_iff.mpr (Or.inr h2)

/-- C2 witness: for a concrete listing created at time 0 with expiry 4,
hours_remaining is non-increasing from time 1 to time 2 and positive at
time 1. -/
theorem hours_remaining_monotone_witness :
    hoursRemaining { id := "L1", ownerId := "d1", createdAt := 0, expiryHours := 4
                   , status := ListingStatus.available } 2 ≤
      hoursRemaining { id := "L1", ownerId := "d1", createdAt := 0, expiryHours := 4
                     , status := ListingStatus.available } 1
    ∧ 0 < hoursRemaining { id := "L1", ownerId := "d1", createdAt := 0, expiryHours := 4
                         , status := ListingStatus.available } 1 :=
  ⟨(hours_remaining_monotone_and_zero_at_expiry _ 1 2).2.1 (by norm_num),
   (hours_remaining_monotone_and_zero_at_expiry _ 1 2).2.2.2 (by norm_num)⟩

/-- One auth step only produces a user record that was already present or
was delivered by a successful login, registration or token-verification
response. -/
theorem authStep_user_source (s : ClientState) (e : AuthEvent) (u : UserData)
    (h : (authStep s e).user = some u) :
    s.user = some u ∨ eventVerifiedUser e = some u := by
  cases e <;> simp [authStep, eventVerifiedUser] at h ⊢ <;> tauto

/-- Over any event sequence, a non-null user record in the final client
state was already in the initial state or came from a successful response
in the sequence. -/
theorem foldl_authStep_user_source (events : List AuthEvent) :
    ∀ (s : ClientState) (u : UserData),
      (List.foldl authStep s events).user = some u →
      s.user = some u ∨ ∃ e ∈ events, eventVerifiedUser e = some u := by
  induction events with
  | nil =>
    intro s u h
    exact Or.inl h
  | cons e rest ih =>
    intro s u h
    rcases ih (authStep s e) u h with h1 | ⟨e1, he1, hv⟩
    · rcases authStep_user_source s e u h1 with h2 | h2
      · exact Or.inl h2
      · exact Or.inr ⟨e, List.mem_cons_self e rest, h2⟩
    · exact Or.inr ⟨e1, List.mem_cons_of_mem e he1, hv⟩

/-- C8: when GET /auth/me returns non-OK or throws, the client removes the
stored token and clears its token state (the user being still unset at app
start), and in any state reachable from app start the dashboard is
rendered only with a user record obtained from a successful login,
registration or token-verification response. -/
theorem dashboard_only_with_verified_user (t : String) (stored : Option String)
    (events : List AuthEvent) (u : UserData)
    (hu : (List.foldl authStep (appStart stored) events).user = some u) :
    authStep (appStart (some t)) AuthEvent.fetchMeNotOk =
      { localStorageToken := none, token := none, user := none, currentView := "login" }
    ∧ authStep (appStart (some t)) AuthEvent.fetchMeThrew =
      { localStorageToken := none, token := none, user := none, currentView := "login" }
    ∧ rendersDashboard (authStep (appStart (some t)) AuthEvent.fetchMeNotOk) = false
    ∧ ∃ e ∈ events, eventVerifiedUser e = some u := by
  refine ⟨rfl, rfl, rfl, ?_⟩
  rcases foldl_authStep_user_source events (appStart stored) u hu with h | h
  · simp [appStart] at h
  · exact h

/-- C8 witness: after a successful login event the dashboard user record
is traced back to that login response. -/
theorem dashboard_only_with_verified_user_witness :
    authStep (appStart (some ("tok"))) AuthEvent.fetchMeNotOk =
      { localStorageToken := none, token := none, user := none, currentView := "login" }
    ∧ authStep (appStart (some ("tok"))) AuthEvent.fetchMeThrew =
      { localStorageToken := none, token := none, user := none, currentView := "login" }
    ∧ rendersDashboard (authStep (appStart (some ("tok"))) AuthEvent.fetchMeNotOk) = false
    ∧ ∃ e ∈ [AuthEvent.loginOk { name := "A", role := "donor" } ("t2")],
        eventVerifiedUser e = some { name := "A", role := "donor" } :=
  dashboard_only_with_verified_user ("tok") (some ("tok"))
    [AuthEvent.loginOk { name := "A", role := "donor" } ("t2")]
    { name := "A", role := "donor" } (by rfl)

/-- Updating the listing with a given id through an id-preserving function
commutes with looking that id up. -/
theorem find_map_update_by_id (xs : List Listing) (listingId : String)
    (g : Listing → Listing) (hg : ∀ l, (g l).id = l.id) :
    (xs.map (fun x => if x.id == listingId then g x else x)).find?
        (fun l => l.id == listingId)
      = (xs.find? (fun l => l.id == listingId)).map g := by
  induction xs with
  | nil => rfl
  | cons x rest ih =>
    simp only [List.map_cons, List.find?_cons]
    by_cases hx : (x.id == listingId) = true
    · rw [if_pos hx, hg x, hx]
      rfl
    · have hx2 : (x.id == listingId) = false := by
        simp only [Bool.not_eq_true] at hx
        exact hx
      rw [if_neg hx, hx2]
      exact ih

/-- An effective status of `available` means the stored status is
`available` and the listing is not expired. -/
theorem effectiveStatus_available_elim (l : Listing) (now : ℚ)
    (h : effectiveStatus l now = ListingStatus.available) :
    l.status = ListingStatus.available ∧ hoursRemaining l now ≠ 0 := by
  unfold effectiveStatus at h
  by_cases h1 : l.status = ListingStatus.completed
  · rw [if_pos h1] at h
    cases h
  · rw [if_neg h1] at h
    by_cases h2 : hoursRemaining l now = 0
    · rw [if_pos h2] at h
      cases h
    · rw [if_neg h2] at h
      exact ⟨h, h2⟩

/-- An effective status of `requested` means the stored status is
`requested` and the listing is not expired. -/
theorem effectiveStatus_requested_elim (l : Listing) (now : ℚ)
    (h : effectiveStatus l now = ListingStatus.requested) :
    l.status = ListingStatus.requested ∧ hoursRemaining l now ≠ 0 := by
  unfold effectiveStatus at h
  by_cases h1 : l.status = ListingStatus.completed
  · rw [if_pos h1] at h
    cases h
  · rw [if_neg h1] at h
    by_cases h2 : hoursRemaining l now = 0
    · rw [if_pos h2] at h
      cases h
    · rw [if_neg h2] at h
      exact ⟨h, h2⟩

/-- Setting an unexpired listing's stored status to `requested` makes its
effective status `requested`. -/
theorem effectiveStatus_set_requested (l : Listing) (now : ℚ)
    (h2 : hoursRemaining l now ≠ 0) :
    effectiveStatus { l with status := ListingStatus.requested } now =
      ListingStatus.requested := by
  unfold effectiveStatus
  rw [if_neg (by simp)]
  have he : hoursRemaining { l with status := ListingStatus.requested } now =
      hoursRemaining l now := rfl
  rw [he, if_neg h2]

/-- A listing whose stored status is `completed` has effective status
`completed` at every instant: completion freezes state. -/
theorem effectiveStatus_completed (l : Listing) (now : ℚ)
    (h : l.status = ListingStatus.completed) :
    effectiveStatus l now = ListingStatus.completed := by
  unfold effectiveStatus
  rw [if_pos h]

/-- C3: completeListing succeeds exactly when the effective status is
`requested` and the caller is the owner; otherwise it fails with
InvalidState when the listing is not in `requested` (in particular a
second call on an already-completed listing) and Forbidden when the
caller is not the owner; and the client offers Mark Complete only for
listings whose status is `requested`. -/
theorem completeListing_requires_requested_owner
    (st : StoreState) (now : ℚ) (listingId caller : String) (l : Listing)
    (hfind : findListing st listingId = some l) :
    (effectiveStatus l now ≠ ListingStatus.requested →
      completeListing st now listingId caller = Except.error CompleteError.InvalidState)
    ∧ (effectiveStatus l now = ListingStatus.requested → caller ≠ l.ownerId →
      completeListing st now listingId caller = Except.error CompleteError.Forbidden)
    ∧ (effectiveStatus l now = ListingStatus.requested → caller = l.ownerId →
      ∃ st1, completeListing st now listingId caller = Except.ok st1
        ∧ findListing st1 listingId = some { l with status := ListingStatus.completed }
        ∧ ∀ (now2 : ℚ) (caller2 : String),
            completeListing st1 now2 listingId caller2 =
              Except.error CompleteError.InvalidState)
    ∧ (showMarkComplete ("requested") = true
       ∧ ∀ s, s ≠ "requested" → showMarkComplete s = false) := by
  refine ⟨fun hne => ?_, fun hreq hnown => ?_, fun hreq hown => ?_, rfl, fun s hs => ?_⟩
  · simp [completeListing, hfind, hne]
  · simp [completeListing, hfind, hreq, hnown]
  · have hfind1 : st.listings.find? (fun x => x.id == listingId) = some l := hfind
    have hupd : findListing
        { st with listings := st.listings.map (fun x =>
            if x.id == listingId then { x with status := ListingStatus.completed } else x) }
        listingId = some { l with status := ListingStatus.completed } := by
      unfold findListing
      simp only []
      rw [find_map_update_by_id st.listings listingId
            (fun x => { x with status := ListingStatus.completed }) (fun x => rfl),
          hfind1]
      rfl
    have hok : completeListing st now listingId caller = Except.ok
        { st with listings := st.listings.map (fun x =>
            if x.id == listingId then { x with status := ListingStatus.completed } else x) } := by
      simp [completeListing, hfind, hreq, hown]
    have hsecond : ∀ (now2 : ℚ) (caller2 : String),
        completeListing
          { st with listings := st.listings.map (fun x =>
              if x.id == listingId then { x with status := ListingStatus.completed } else x) }
          now2 listingId caller2 = Except.error CompleteError.InvalidState := by
      intro now2 caller2
      unfold completeListing
      simp only [hupd]
      rw [effectiveStatus_completed { l with status := ListingStatus.completed } now2 rfl]
      simp
    exact ⟨_, hok, hupd, hsecond⟩
  · simp [showMarkComplete, hs]

/-- C3 witness: on a concrete store, a second completion attempt on an
already-completed listing fails with InvalidState, and a non-owner caller
on a requested listing gets Forbidden. -/
theorem completeListing_invalid_state_witness :
    completeListing
      { listings := [{ id := "L1", ownerId := "d1", createdAt := 0, expiryHours := 4
                     , status := ListingStatus.completed }], requests := [] }
      1 ("L1") ("d1") = Except.error CompleteError.InvalidState
    ∧ completeListing
      { listings := [{ id := "L1", ownerId := "d1", createdAt := 0, expiryHours := 4
                     , status := ListingStatus.requested }], requests := [] }
      1 ("L1") ("intruder") = Except.error CompleteError.Forbidden :=
  ⟨(completeListing_requires_requested_owner
      { listings := [{ id := "L1", ownerId := "d1", createdAt := 0, expiryHours := 4
                     , status := ListingStatus.completed }], requests := [] }
      1 ("L1") ("d1")
      { id := "L1", ownerId := "d1", createdAt := 0, expiryHours := 4
      , status := ListingStatus.completed } rfl).1
      (by rw [effectiveStatus_completed _ 1 rfl]; simp),
   (completeListing_requires_requested_owner
      { listings := [{ id := "L1", ownerId := "d1", createdAt := 0, expiryHours := 4
                     , status := ListingStatus.requested }], requests := [] }
      1 ("L1") ("intruder")
      { id := "L1", ownerId := "d1", createdAt := 0, expiryHours := 4
      , status := ListingStatus.requested } rfl).2.1
      (by norm_num [effectiveStatus, hoursRemaining, elapsedHours]; decide)
      (by decide)⟩

/-- C5: a form submission whose values come from the client's enumerated
selects and whose required fields are non-empty parses expiry_hours to an
integer in {2,4,6,12,24} and passes the server-side creation validation;
the validation accepts only inputs with non-empty required fields,
food_type in its enumerated set and expiry_hours in {2,4,6,12,24}; and the
client option sets coincide with the validated sets. -/
theorem listing_creation_validation (f : ListingForm)
    (he : f.expiry_hours ∈ expiryHoursOptions)
    (hf : f.food_type ∈ foodTypeOptions)
    (ht : f.title ≠ "") (hd : f.description ≠ "") (hq : f.quantity ≠ "")
    (hp : f.pickup_address ≠ "") :
    expiryHoursOptions.filterMap jsParseInt = validExpiryHours
    ∧ foodTypeOptions = validFoodTypes
    ∧ (∃ n, jsParseInt f.expiry_hours = some n ∧ n ∈ validExpiryHours)
    ∧ validateListingInput (clientListingPayload f) = true
    ∧ (∀ inp : ListingInput, validateListingInput inp = true →
        inp.title ≠ "" ∧ inp.description ≠ "" ∧ inp.quantity ≠ "" ∧
        inp.pickup_address ≠ "" ∧ inp.food_type ∈ validFoodTypes ∧
        ∃ n, inp.expiry_hours = some n ∧ n ∈ validExpiryHours) := by
  have hparse : ∃ n, jsParseInt f.expiry_hours = some n ∧ n ∈ validExpiryHours := by
    simp only [expiryHoursOptions, List.mem_cons, List.not_mem_nil, or_false] at he
    rcases he with h | h | h | h | h
    · rw [h]
      exact ⟨2, by decide, by decide⟩
    · rw [h]
      exact ⟨4, by decide, by decide⟩
    · rw [h]
      exact ⟨6, by decide, by decide⟩
    · rw [h]
      exact ⟨12, by decide, by decide⟩
    · rw [h]
      exact ⟨24, by decide, by decide⟩
  have hvalid : validateListingInput (clientListingPayload f) = true := by
    obtain ⟨n, hn, hmem⟩ := hparse
    simp only [validateListingInput, clientListingPayload, hn, Bool.and_eq_true,
      decide_eq_true_eq]
    refine ⟨⟨⟨⟨⟨ht, hd⟩, hq⟩, hp⟩, ?_⟩, ?_⟩
    · simp only [foodTypeOptions, List.mem_cons, List.not_mem_nil, or_false] at hf
      rcases hf with h | h | h <;> rw [h] <;> decide
    · simp only [validExpiryHours, List.mem_cons, List.not_mem_nil, or_false] at hmem
      rcases hmem with h | h | h | h | h <;> rw [h] <;> decide
  refine ⟨by decide, rfl, hparse, hvalid, ?_⟩
  intro inp hv
  simp only [validateListingInput, Bool.and_eq_true, decide_eq_true_eq] at hv
  obtain ⟨⟨⟨⟨⟨h1, h2⟩, h3⟩, h4⟩, h5⟩, h6⟩ := hv
  refine ⟨h1, h2, h3, h4, by simpa using h5, ?_⟩
  cases hx : inp.expiry_hours with
  | none =>
    rw [hx] at h6
    exact absurd h6 (by decide)
  | some n =>
    rw [hx] at h6
    exact ⟨n, rfl, by simpa using h6⟩

/-- C5 witness: a concrete submission from the form's own option values
parses and validates. -/
theorem listing_creation_validation_witness :
    validateListingInput (clientListingPayload
      { title := "Rice", description := "Fresh", quantity := "5kg"
      , food_type := "veg", pickup_address := "12 Main St", expiry_hours := "4"
      , image_url := "" }) = true :=
  (listing_creation_validation
    { title := "Rice", description := "Fresh", quantity := "5kg"
    , food_type := "veg", pickup_address := "12 Main St", expiry_hours := "4"
    , image_url := "" }
    (by decide) (by decide) (by decide) (by decide) (by decide) (by decide)).2.2.2.1

/-- Monotonicity of filtering: a stronger predicate keeps at most as many
elements as a weaker one. -/
theorem length_filter_mono {α : Type} (xs : List α) (p r : α → Bool)
    (h : ∀ x, p x = true → r x = true) :
    (xs.filter p).length ≤ (xs.filter r).length := by
  induction xs with
  | nil => simp
  | cons x rest ih =>
    simp only [List.filter_cons]
    by_cases hpx : p x = true
    · have hrx := h x hpx
      rw [if_pos hpx, if_pos hrx]
      simp only [List.length_cons]
      omega
    · by_cases hrx : r x = true
      · rw [if_neg hpx, if_pos hrx]
        simp only [List.length_cons]
        omega
      · rw [if_neg hpx, if_neg hrx]
        exact ih

/-- Two disjoint sub-filters of a filter together keep at most as many
elements as the enclosing filter. -/
theorem length_filter_disjoint_le {α : Type} (xs : List α) (p q r : α → Bool)
    (hp : ∀ x, p x = true → r x = true) (hq : ∀ x, q x = true → r x = true)
    (hpq : ∀ x, ¬(p x = true ∧ q x = true)) :
    (xs.filter p).length + (xs.filter q).length ≤ (xs.filter r).length := by
  induction xs with
  | nil => simp
  | cons x rest ih =>
    simp only [List.filter_cons]
    by_cases hpx : p x = true
    · have hrx := hp x hpx
      have hqx : ¬ q x = true := fun hh => hpq x ⟨hpx, hh⟩
      rw [if_pos hpx, if_neg hqx, if_pos hrx]
      simp only [List.length_cons]
      omega
    · by_cases hqx : q x = true
      · have hrx := hq x hqx
        rw [if_neg hpx, if_pos hqx, if_pos hrx]
        simp only [List.length_cons]
        omega
      · by_cases hrx : r x = true
        · rw [if_neg hpx, if_neg hqx, if_pos hrx]
          simp only [List.length_cons]
          omega
        · rw [if_neg hpx, if_neg hqx, if_neg hrx]
          exact ih

/-- C7: the donor and organization stats views expose exactly the counter
fields the two dashboards read; total_listings counts the caller's
listings, and the active/completed (resp. accepted/completed) counters
are consistent sub-counts of the totals. -/
theorem stats_counter_fields (st : StoreState) (now : ℚ) (caller : String) :
    donorStatsResponseFields = donorDashboardStatReads
    ∧ ngoStatsResponseFields = ngoDashboardStatReads
    ∧ (donorStats st now caller).total_listings =
        st.listings.countP (fun l => l.ownerId == caller)
    ∧ (donorStats st now caller).active_listings +
        (donorStats st now caller).completed_pickups ≤
        (donorStats st now caller).total_listings
    ∧ (ngoStats st caller).accepted_requests ≤ (ngoStats st caller).total_requests
    ∧ (ngoStats st caller).completed_pickups ≤ (ngoStats st caller).total_requests := by
  refine ⟨rfl, rfl, ?_, ?_, ?_, ?_⟩
  · rw [List.countP_eq_length_filter]
    rfl
  · show (st.listings.filter (fun l => l.ownerId == caller &&
        (effectiveStatus l now == ListingStatus.available ||
         effectiveStatus l now == ListingStatus.requested))).length +
      (st.listings.filter (fun l => l.ownerId == caller &&
        l.status == ListingStatus.completed)).length ≤
      (st.listings.filter (fun l => l.ownerId == caller)).length
    apply length_filter_disjoint_le
    · intro x hx
      simp only [Bool.and_eq_true] at hx
      exact hx.1
    · intro x hx
      simp only [Bool.and_eq_true] at hx
      exact hx.1
    · intro x hx
      obtain ⟨hx1, hx2⟩ := hx
      simp only [Bool.and_eq_true, Bool.or_eq_true, beq_iff_eq] at hx1 hx2
      rcases hx1.2 with h | h
      · have hs := (effectiveStatus_available_elim x now h).1
        rw [hx2.2] at hs
        cases hs
      · have hs := (effectiveStatus_requested_elim x now h).1
        rw [hx2.2] at hs
        cases hs
  · show (st.requests.filter (fun q => q.requesterId == caller &&
        q.status == RequestStatus.accepted &&
        !(requestListingCompleted st q))).length ≤
      (st.requests.filter (fun q => q.requesterId == caller)).length
    apply length_filter_mono
    intro x hx
    simp only [Bool.and_eq_true] at hx
    exact hx.1.1
  · show (st.requests.filter (fun q => q.requesterId == caller &&
        requestListingCompleted st q)).length ≤
      (st.requests.filter (fun q => q.requesterId == caller)).length
    apply length_filter_mono
    intro x hx
    simp only [Bool.and_eq_true] at hx
    exact hx.1

/-- A successful claim: on an effectively available listing,
submitRequest atomically records one accepted Request and flips the
listing to `requested`. -/
theorem submitRequest_success_shape (st : StoreState) (now : ℚ)
    (listingId requester msg : String) (l : Listing)
    (hfind : findListing st listingId = some l)
    (havail : effectiveStatus l now = ListingStatus.available) :
    ∃ st1, submitRequest st now listingId requester msg = Except.ok st1
      ∧ findListing st1 listingId = some { l with status := ListingStatus.requested }
      ∧ st1.requests = st.requests ++
          [{ listingId := listingId, requesterId := requester, message := msg
           , status := RequestStatus.accepted }] := by
  refine ⟨{ listings := st.listings.map (fun x =>
              if x.id == listingId then { x with status := ListingStatus.requested } else x)
          , requests := st.requests ++
              [{ listingId := listingId, requesterId := requester, message := msg
               , status := RequestStatus.accepted }] }, ?_, ?_, rfl⟩
  · unfold submitRequest
    simp only [hfind]
    rw [if_pos havail]
  · unfold findListing
    simp only []
    rw [find_map_update_by_id st.listings listingId
          (fun x => { x with status := ListingStatus.requested }) (fun x => rfl)]
    have hfind1 : st.listings.find? (fun x => x.id == listingId) = some l := hfind
    rw [hfind1]
    rfl

/-- A claim attempt against a listing that is not effectively available
fails with ListingUnavailable and changes nothing. -/
theorem submitRequest_unavailable_eq (st : StoreState) (now : ℚ)
    (listingId requester msg : String) (l : Listing)
    (hfind : findListing st listingId = some l)
    (hne : effectiveStatus l now ≠ ListingStatus.available) :
    submitRequest st now listingId requester msg =
      Except.error SubmitError.ListingUnavailable := by
  unfold submitRequest
  simp only [hfind]
  rw [if_neg hne]

/-- Every claim in a batch against a non-available listing fails and
leaves the store untouched. -/
theorem runClaims_unavailable (now : ℚ) (listingId : String)
    (claimants : List (String × String)) :
    ∀ (st : StoreState) (l : Listing), findListing st listingId = some l →
      effectiveStatus l now ≠ ListingStatus.available →
      runClaims st now listingId claimants =
        (st, List.replicate claimants.length
              (Except.error SubmitError.ListingUnavailable)) := by
  induction claimants with
  | nil =>
    intro st l h1 h2
    rfl
  | cons c rest ih =>
    intro st l h1 h2
    obtain ⟨r, m⟩ := c
    have herr := submitRequest_unavailable_eq st now listingId r m l h1 h2
    show runClaims st now listingId ((r, m) :: rest) = _
    unfold runClaims
    simp only [herr]
    rw [ih st l h1 h2]
    rfl

/-- C1: on an effectively available listing with no accepted request yet,
any batch of claim attempts on the same listing at the same instant has
exactly one success — the first — and every other attempt fails with
ListingUnavailable; the listing ends `requested` and exactly one accepted
Request, by the winning requester, is recorded. -/
theorem submitRequest_claim_race (st : StoreState) (now : ℚ) (listingId : String)
    (l : Listing) (r m : String) (rest : List (String × String))
    (hfind : findListing st listingId = some l)
    (havail : effectiveStatus l now = ListingStatus.available)
    (hnoacc : acceptedRequestersFor st listingId = []) :
    (runClaims st now listingId ((r, m) :: rest)).2 =
      Except.ok () :: List.replicate rest.length
        (Except.error SubmitError.ListingUnavailable)
    ∧ findListing (runClaims st now listingId ((r, m) :: rest)).1 listingId =
        some { l with status := ListingStatus.requested }
    ∧ acceptedRequestersFor (runClaims st now listingId ((r, m) :: rest)).1 listingId
        = [r] := by
  obtain ⟨hstat, hrem⟩ := effectiveStatus_available_elim l now havail
  obtain ⟨st1, hok, hfind2, hreq2⟩ :=
    submitRequest_success_shape st now listingId r m l hfind havail
  have heff2 : effectiveStatus { l with status := ListingStatus.requested } now ≠
      ListingStatus.available := by
    rw [effectiveStatus_set_requested l now hrem]
    simp
  have hrest := runClaims_unavailable now listingId rest st1
    { l with status := ListingStatus.requested } hfind2 heff2
  have hrun : runClaims st now listingId ((r, m) :: rest) =
      (st1, Except.ok () :: List.replicate rest.length
        (Except.error SubmitError.ListingUnavailable)) := by
    show runClaims st now listingId ((r, m) :: rest) = _
    unfold runClaims
    simp only [hok, hrest]
  have hacc : acceptedRequestersFor st1 listingId = [r] := by
    unfold acceptedRequestersFor at hnoacc ⊢
    rw [hreq2, List.filter_append, List.map_append, hnoacc]
    simp
  rw [hrun]
  exact ⟨rfl, hfind2, hacc⟩

/-- C1 witness: two simultaneous claims on one available listing — the
first succeeds, the second fails with ListingUnavailable, and one
accepted request by the winner is recorded. -/
theorem submitRequest_claim_race_witness :
    (runClaims
      { listings := [{ id := "L1", ownerId := "d1", createdAt := 0, expiryHours := 2
                     , status := ListingStatus.available }], requests := [] }
      1 ("L1") [("n1", "hello"), ("n2", "also")]).2 =
      Except.ok () :: List.replicate 1 (Except.error SubmitError.ListingUnavailable)
    ∧ findListing (runClaims
      { listings := [{ id := "L1", ownerId := "d1", createdAt := 0, expiryHours := 2
                     , status := ListingStatus.available }], requests := [] }
      1 ("L1") [("n1", "hello"), ("n2", "also")]).1 ("L1") =
        some { id := "L1", ownerId := "d1", createdAt := 0, expiryHours := 2
             , status := ListingStatus.requested }
    ∧ acceptedRequestersFor (runClaims
      { listings := [{ id := "L1", ownerId := "d1", createdAt := 0, expiryHours := 2
                     , status := ListingStatus.available }], requests := [] }
      1 ("L1") [("n1", "hello"), ("n2", "also")]).1 ("L1") = ["n1"] :=
  submitRequest_claim_race
    { listings := [{ id := "L1", ownerId := "d1", createdAt := 0, expiryHours := 2
                   , status := ListingStatus.available }], requests := [] }
    1 ("L1")
    { id := "L1", ownerId := "d1", createdAt := 0, expiryHours := 2
    , status := ListingStatus.available }
    ("n1") ("hello") [("n2", "also")] rfl
    (by norm_num [effectiveStatus, hoursRemaining, elapsedHours]; decide) rfl

/-- C8 counterexample: a failed GET /auth/me does not clear the user
state — after a successful login followed by a failing token
verification, the token is removed but the user record is still set. -/
theorem fetchMe_failure_leaves_user_counterexample :
    (List.foldl authStep (appStart none)
      [AuthEvent.loginOk { name := "A", role := "donor" } ("t"),
       AuthEvent.fetchMeNotOk]).user = some { name := "A", role := "donor" }
    ∧ (List.foldl authStep (appStart none)
      [AuthEvent.loginOk { name := "A", role := "donor" } ("t"),
       AuthEvent.fetchMeNotOk]).token = none :=
  ⟨rfl, rfl⟩
